import Mathlib

/-!
Verification of the ETC_CRM-ADMIN dashboard logic: pagination windowing,
status classification, and form validation, embedded shallowly from the
TypeScript source.
-/

/-- Three-valued severity level, as in `toStatuses`
(src/app/(auth)/layout.tsx): `"ok" | "warn" | "bad"`. -/
inductive Level where
  | ok
  | warn
  | bad
deriving DecidableEq, Repr

/-- Presentation variant: `"success" | "warning" | "destructive"`. -/
inductive Variant where
  | success
  | warning
  | destructive
deriving DecidableEq, Repr

/-- `pickVariant` from src/app/(auth)/layout.tsx lines 33-39:
ok ↦ success, warn ↦ warning, otherwise destructive. -/
def pickVariant (level : Level) : Variant :=
  if level = Level.ok then Variant.success
  else if level = Level.warn then Variant.warning
  else Variant.destructive

/-- Case-insensitive substring test, embedding the JavaScript
case-insensitive regular-expression membership tests
(`/connected/i.test s`, `/started/i.test s`) used in `toStatuses`:
the needle is lowercase already, the haystack is lowered. -/
def containsCI (hay needle : String) : Bool :=
  decide (needle.toLower.toList <:+: hay.toLower.toList)

/-- CPU classification, src/app/(auth)/layout.tsx line 49:
`cpu < 0.7 ? "ok" : cpu < 1.5 ? "warn" : "bad"`.
The parsed floating-point load is modelled as a rational. -/
def cpuLevel (v : ℚ) : Level :=
  if v < 7/10 then Level.ok else if v < 3/2 then Level.warn else Level.bad

/-- Memory classification, src/app/(auth)/layout.tsx line 53:
`memPct < 80 ? "ok" : memPct < 95 ? "warn" : "bad"`. -/
def memLevel (p : ℚ) : Level :=
  if p < 80 then Level.ok else if p < 95 then Level.warn else Level.bad

/-- `dbConnected`, line 56: `/connected/i.test(api.dbStatus || "")`. -/
def dbConnected (dbStatus : String) : Bool :=
  containsCI dbStatus "connected"

/-- `dbLevel`, line 57: connected ↦ ok, otherwise bad. -/
def dbLevel (dbStatus : String) : Level :=
  if dbConnected dbStatus then Level.ok else Level.bad

/-- `serverUp`, lines 60-62:
`/server started/i.test(api.server || "") || /started/i.test(api.server || "")`. -/
def serverUp (server : String) : Bool :=
  containsCI server "server started" || containsCI server "started"

/-- `serverLevel`, line 64: up ↦ ok, otherwise bad. -/
def serverLevel (server : String) : Level :=
  if serverUp server then Level.ok else Level.bad

/-- `hookLevel`, lines 67-68: the severity of the payment webhook is
decided by the boolean `paymentWebhookStatus.success`. -/
def hookLevel (hookOk : Bool) : Level :=
  if hookOk then Level.ok else Level.bad

/-- The five (title, variant) pairs emitted by `toStatuses`
(src/app/(auth)/layout.tsx lines 71-104), in source order; the purely
decorative display strings of each entry are not modelled. -/
def toStatusVariants (server dbStatus : String) (cpuLoad usagePercent : ℚ)
    (hookOk : Bool) : List (String × Variant) :=
  [ ("SERVER", pickVariant (serverLevel server)),
    ("DATABASE", pickVariant (dbLevel dbStatus)),
    ("CPU LOAD", pickVariant (cpuLevel cpuLoad)),
    ("MEMORY", pickVariant (memLevel usagePercent)),
    ("WEBHOOK", pickVariant (hookLevel hookOk)) ]

/-- The arithmetic progression `[s, s+1, …, e]` (empty when `e < s`):
model of `Array.from({ length: end - start + 1 }, (_, i) => start + i)`. -/
def windowFrom (s e : ℤ) : List ℤ :=
  (List.range (e - s + 1).toNat).map (fun i : ℕ => s + (i : ℤ))

/-- Pagination window of the addons page: `pages` in src/unnamed/part_000,
the identical computation at lines 293-300 and 677-685, including the
re-clamp of `start` (the reassigned `start` is `start2` here). -/
def pagesAddons (currentPage totalPages : ℤ) : List ℤ :=
  let windowSize : ℤ := 5
  let half := windowSize / 2
  let start := max 1 (currentPage - half)
  let e := min totalPages (start + windowSize - 1)
  let start2 := max 1 (min start (e - windowSize + 1))
  windowFrom start2 e

/-- Pagination window of the workspace/properties page: `pages` in
src/unnamed/part_001 lines 190-193 — the same computation but WITHOUT the
re-clamp of `start`. -/
def pagesWorkspace (currentPage totalPages : ℤ) : List ℤ :=
  let windowSize : ℤ := 5
  let start := max 1 (currentPage - windowSize / 2)
  let e := min totalPages (start + windowSize - 1)
  windowFrom start e

/-- Modelled from the spec's words (the claimed algorithm, for the
refinement comparison): half = 2, start0 = max(1, currentPage - half),
end = min(totalPages, start0 + 4), start = max(1, min(start0, end - 4)),
emit [start..end]. -/
def computeWindowSpec (currentPage totalPages : ℤ) : List ℤ :=
  let start0 := max 1 (currentPage - 2)
  let e := min totalPages (start0 + 4)
  let start := max 1 (min start0 (e - 4))
  windowFrom start e

/-- Drops leading and trailing whitespace from a character list. -/
def trimChars (l : List Char) : List Char :=
  ((l.dropWhile Char.isWhitespace).reverse.dropWhile Char.isWhitespace).reverse

/-- Model of `String.trim` (the forms' `.trim()` calls), kept as explicit
character-list manipulation so that it evaluates by kernel reduction. -/
def trimStr (s : String) : String :=
  String.mk (trimChars s.data)

/-- Digit-string value: folds decimal digits into a natural number. -/
def digitsVal (l : List Char) : ℕ :=
  l.foldl (fun acc c => acc * 10 + (c.toNat - 48)) 0

/-- A finite JavaScript number parsed from a numeric literal, kept
unnormalised as a mantissa and a power-of-ten scale so that it evaluates
by kernel reduction; the represented value is `mantissa / 10 ^ scale`
(the scale is an integer so that exponent parts are representable). -/
structure JsNum where
  mantissa : ℤ
  scale : ℤ
deriving DecidableEq, Repr

/-- The rational value represented by a parsed JavaScript number. -/
def JsNum.toRat (n : JsNum) : ℚ := (n.mantissa : ℚ) / 10 ^ n.scale

/-- The `valueNum < 0` test of both forms, on a parsed number. -/
def JsNum.isNeg (n : JsNum) : Bool := n.mantissa < 0

/-- Value of one digit character in the given radix, if valid there. -/
def digitValIn (radix : ℕ) (c : Char) : Option ℕ :=
  let v : Option ℕ :=
    if '0' ≤ c ∧ c ≤ '9' then some (c.toNat - 48)
    else if 'a' ≤ c ∧ c ≤ 'f' then some (c.toNat - 87)
    else if 'A' ≤ c ∧ c ≤ 'F' then some (c.toNat - 55)
    else none
  match v with
  | some d => if d < radix then some d else none
  | none => none

/-- Digit-list value in the given radix; `none` on an empty list or on an
invalid digit, as in the hex/octal/binary cases of `Number()`. -/
def radixVal (radix : ℕ) (l : List Char) : Option ℕ :=
  if l = [] then none
  else
    l.foldl
      (fun acc c =>
        match acc, digitValIn radix c with
        | some a, some d => some (a * radix + d)
        | _, _ => none)
      (some 0)

/-- Smallest magnitude that IEEE-754 double rounding sends to Infinity:
2^1024 − 2^970 (the tie at this midpoint rounds to even, i.e. up). -/
def overflowBound : ℕ := 2 ^ 970 * (2 ^ 54 - 1)

/-- The magnitude `m / 10 ^ scale` rounds to ±Infinity. -/
def jsOverflows (m : ℕ) (scale : ℤ) : Bool :=
  if 0 ≤ scale then overflowBound * 10 ^ scale.toNat ≤ m
  else overflowBound ≤ m * 10 ^ (-scale).toNat

/-- The magnitude `m / 10 ^ scale` rounds to ±0: it is at most 2^(−1075),
half the smallest denormal (the tie rounds to even, i.e. to zero). -/
def jsUnderflows (m : ℕ) (scale : ℤ) : Bool :=
  if 0 ≤ scale then m * 2 ^ 1075 ≤ 10 ^ scale.toNat
  else m = 0

/-- Assembles a parsed sign, magnitude and scale into the result of
`Number()` as seen by the forms' checks: overflow gives ±Infinity, i.e.
`none` under the `Number.isFinite` guard; underflow gives ±0 (and JS −0
is not `< 0`, so the sign is dropped); an in-range magnitude is kept
exact — rounding to the nearest double never changes the sign or the
finiteness, which are all the forms inspect. -/
def jsFinish (neg : Bool) (m : ℕ) (scale : ℤ) : Option JsNum :=
  if jsOverflows m scale then none
  else if jsUnderflows m scale then some ⟨0, 0⟩
  else some ⟨if neg then -(m : ℤ) else (m : ℤ), scale⟩

/-- Parses a signed decimal literal — optional sign, digits, optional
fraction, optional exponent part — per the `StrDecimalLiteral` grammar of
`Number()`; `Infinity` and malformed strings give `none`. -/
def parseDecChars (t : List Char) : Option JsNum :=
  let neg : Bool := match t with | '-' :: _ => true | _ => false
  let rest : List Char :=
    match t with
    | '-' :: r => r
    | '+' :: r => r
    | r => r
  let intPart := rest.takeWhile Char.isDigit
  let rest2 := rest.drop intPart.length
  let fr : List Char × List Char :=
    match rest2 with
    | '.' :: r => (r.takeWhile Char.isDigit, r.drop (r.takeWhile Char.isDigit).length)
    | r => ([], r)
  let fracPart := fr.1
  let rest3 := fr.2
  if intPart = [] ∧ fracPart = [] then none
  else
    let m := digitsVal intPart * 10 ^ fracPart.length + digitsVal fracPart
    match rest3 with
    | [] => jsFinish neg m (fracPart.length : ℤ)
    | e :: r =>
      if e = 'e' ∨ e = 'E' then
        let eneg : Bool := match r with | '-' :: _ => true | _ => false
        let edigits : List Char :=
          match r with
          | '-' :: rr => rr
          | '+' :: rr => rr
          | rr => rr
        if edigits ≠ [] ∧ edigits.all Char.isDigit then
          let ev : ℤ := if eneg then -(digitsVal edigits : ℤ) else (digitsVal edigits : ℤ)
          jsFinish neg m ((fracPart.length : ℤ) - ev)
        else none
      else none

/-- Models the JavaScript `Number(string)` coercion as used by both addon
forms: surrounding whitespace is trimmed, the empty string gives 0,
hex/octal/binary integer literals (no sign allowed) and signed decimal
literals with optional fraction and exponent give their value, and any
other string — including `Infinity` and literals whose value rounds to
±Infinity — gives `none`, exactly the cases the `Number.isFinite` guard
rejects. -/
def jsNumber (s : String) : Option JsNum :=
  let t := trimChars s.data
  if t = [] then some ⟨0, 0⟩
  else
    match t with
    | '0' :: 'x' :: r => (radixVal 16 r).bind (fun m => jsFinish false m 0)
    | '0' :: 'X' :: r => (radixVal 16 r).bind (fun m => jsFinish false m 0)
    | '0' :: 'o' :: r => (radixVal 8 r).bind (fun m => jsFinish false m 0)
    | '0' :: 'O' :: r => (radixVal 8 r).bind (fun m => jsFinish false m 0)
    | '0' :: 'b' :: r => (radixVal 2 r).bind (fun m => jsFinish false m 0)
    | '0' :: 'B' :: r => (radixVal 2 r).bind (fun m => jsFinish false m 0)
    | _ => parseDecChars t

/-- State of the create-addon form (src/app/(root)/addons/create/page.tsx):
title, description and value fields, all strings. -/
structure CreateForm where
  title : String
  description : String
  value : String
deriving DecidableEq

/-- What a create-form submission does: either it stops with a validation
error (no network call) or it issues the create request with the given
payload. -/
inductive CreateOutcome where
  | validationError (msg : String)
  | request (title description : String) (value : JsNum)
deriving DecidableEq

/-- `onSubmit` of the create-addon form
(src/app/(root)/addons/create/page.tsx lines 31-53): trims title and
description, coerces the value, and validates in source order before the
`apiClient.post` call; only the submission decision is modelled (the
error/success display flags are not). -/
def onSubmit (form : CreateForm) : CreateOutcome :=
  let title := trimStr form.title
  let description := trimStr form.description
  let valueNum := jsNumber form.value
  if title = "" then CreateOutcome.validationError "TITLE_IS_REQUIRED"
  else if description = "" then CreateOutcome.validationError "DESCRIPTION_IS_REQUIRED"
  else
    match valueNum with
    | none => CreateOutcome.validationError "VALUE_MUST_BE_NON_NEGATIVE_NUMBER"
    | some v =>
      if v.isNeg then CreateOutcome.validationError "VALUE_MUST_BE_NON_NEGATIVE_NUMBER"
      else CreateOutcome.request title description v

/-- URL query parameters read by the edit-addon page via `sp.get`; `none`
models an absent parameter (`null`). -/
structure EditQuery where
  id : Option String
  title : Option String
  description : Option String
  value : Option String
  status : Option String
deriving DecidableEq

/-- JavaScript `x || d` on a nullable string: `null` and `""` are falsy. -/
def jsOr (o : Option String) (d : String) : String :=
  match o with
  | none => d
  | some v => if v = "" then d else v

/-- `initialTitle` (src/app/(root)/addons/edit/page.tsx line 13). -/
def initialTitle (q : EditQuery) : String := jsOr q.title ""

/-- `initialDescription` (line 14). -/
def initialDescription (q : EditQuery) : String := jsOr q.description ""

/-- `initialValue` (line 15). -/
def initialValue (q : EditQuery) : String := jsOr q.value ""

/-- `initialStatus` (line 16): defaults to "ACTIVE". -/
def initialStatus (q : EditQuery) : String := jsOr q.status "ACTIVE"

/-- State of the edit-addon form: the query parameters it was opened with
and the current title/description/value/status fields. -/
structure EditState where
  q : EditQuery
  title : String
  description : String
  value : String
  status : String
deriving DecidableEq

/-- What an edit-form submission does: a validation error (no network
call) or the PATCH request with the given payload. -/
inductive EditOutcome where
  | validationError (msg : String)
  | request (addOnId title description : String) (value : JsNum) (status : String)
deriving DecidableEq

/-- `submit` of the edit-addon form
(src/app/(root)/addons/edit/page.tsx lines 25-56): checks the id and the
coerced value, then issues the PATCH with the current fields; it performs
no title or description validation. -/
def submit (st : EditState) : EditOutcome :=
  if jsOr st.q.id "" = "" then EditOutcome.validationError "INVALID_ADDON_ID"
  else
    match jsNumber st.value with
    | none => EditOutcome.validationError "VALUE_MUST_BE_NON_NEGATIVE_NUMBER"
    | some v =>
      if v.isNeg then EditOutcome.validationError "VALUE_MUST_BE_NON_NEGATIVE_NUMBER"
      else EditOutcome.request (jsOr st.q.id "") st.title st.description v st.status

/-- `hasChanges` (src/app/(root)/addons/edit/page.tsx lines 58-62): true
iff any field differs from its initial value. -/
def hasChanges (st : EditState) : Bool :=
  (st.title != initialTitle st.q)
  || (st.description != initialDescription st.q)
  || (st.value != initialValue st.q)
  || (st.status != initialStatus st.q)

/-- The submit control's `disabled` attribute
(src/app/(root)/addons/edit/page.tsx line 230): `saving || !hasChanges`. -/
def submitDisabled (saving : Bool) (st : EditState) : Bool :=
  saving || !hasChanges st

/-- Characterisation of a two-threshold three-way classifier of the shape
used twice in `toStatuses`. -/
theorem threshold_level_iff (a b v : ℚ) (hab : a ≤ b) :
    ((if v < a then Level.ok else if v < b then Level.warn else Level.bad)
        = Level.ok ↔ v < a)
    ∧ ((if v < a then Level.ok else if v < b then Level.warn else Level.bad)
        = Level.warn ↔ a ≤ v ∧ v < b)
    ∧ ((if v < a then Level.ok else if v < b then Level.warn else Level.bad)
        = Level.bad ↔ b ≤ v) := by
  split_ifs with h1 h2
  · exact ⟨iff_of_true rfl h1,
      iff_of_false (by decide)
        (fun h => absurd h.1 (not_le.mpr h1)),
      iff_of_false (by decide)
        (not_le.mpr (lt_of_lt_of_le h1 hab))⟩
  · exact ⟨iff_of_false (by decide) h1,
      iff_of_true rfl ⟨not_lt.mp h1, h2⟩,
      iff_of_false (by decide) (not_le.mpr h2)⟩
  · exact ⟨iff_of_false (by decide) h1,
      iff_of_false (by decide) (fun h => absurd h.2 h2),
      iff_of_true rfl (not_lt.mp h2)⟩

/-- C4: the status classifier maps CPU load v to ok iff v < 0.7, warn iff
0.7 ≤ v < 1.5, bad iff v ≥ 1.5 (in particular 0.69 ↦ ok, 0.7 ↦ warn,
1.5 ↦ bad), and maps memory usage percent p to ok iff p < 80, warn iff
80 ≤ p < 95, bad iff p ≥ 95. -/
theorem classifier_thresholds :
    (∀ v : ℚ, (cpuLevel v = Level.ok ↔ v < 7/10)
      ∧ (cpuLevel v = Level.warn ↔ 7/10 ≤ v ∧ v < 3/2)
      ∧ (cpuLevel v = Level.bad ↔ 3/2 ≤ v))
    ∧ (∀ p : ℚ, (memLevel p = Level.ok ↔ p < 80)
      ∧ (memLevel p = Level.warn ↔ 80 ≤ p ∧ p < 95)
      ∧ (memLevel p = Level.bad ↔ 95 ≤ p))
    ∧ cpuLevel (69/100) = Level.ok
    ∧ cpuLevel (7/10) = Level.warn
    ∧ cpuLevel (3/2) = Level.bad := by
  refine ⟨fun v => threshold_level_iff (7/10) (3/2) v (by norm_num),
    fun p => threshold_level_iff 80 95 p (by norm_num), ?_, ?_, ?_⟩
  · unfold cpuLevel; norm_num
  · unfold cpuLevel; norm_num
  · unfold cpuLevel; norm_num

/-- C5: for every status snapshot, the severity of the server, database
and webhook subsystems is ok or bad, never warn (their variant is success
or destructive, never warning); server and database severities are decided
by case-insensitive pattern checks on the status strings. -/
theorem boolean_severities :
    ∀ (server dbStatus : String) (cpuLoad usagePercent : ℚ) (hookOk : Bool),
      (serverLevel server = Level.ok ∨ serverLevel server = Level.bad)
      ∧ (dbLevel dbStatus = Level.ok ∨ dbLevel dbStatus = Level.bad)
      ∧ (hookLevel hookOk = Level.ok ∨ hookLevel hookOk = Level.bad)
      ∧ (pickVariant (serverLevel server) = Variant.success
          ∨ pickVariant (serverLevel server) = Variant.destructive)
      ∧ (pickVariant (dbLevel dbStatus) = Variant.success
          ∨ pickVariant (dbLevel dbStatus) = Variant.destructive)
      ∧ (pickVariant (hookLevel hookOk) = Variant.success
          ∨ pickVariant (hookLevel hookOk) = Variant.destructive)
      ∧ (serverLevel server = Level.ok
          ↔ (containsCI server "server started"
              || containsCI server "started") = true)
      ∧ (dbLevel dbStatus = Level.ok ↔ containsCI dbStatus "connected" = true)
      ∧ toStatusVariants server dbStatus cpuLoad usagePercent hookOk =
          [("SERVER", pickVariant (serverLevel server)),
           ("DATABASE", pickVariant (dbLevel dbStatus)),
           ("CPU LOAD", pickVariant (cpuLevel cpuLoad)),
           ("MEMORY", pickVariant (memLevel usagePercent)),
           ("WEBHOOK", pickVariant (hookLevel hookOk))] := by
  intro server dbStatus cpuLoad usagePercent hookOk
  refine ⟨?_, ?_, ?_, ?_, ?_, ?_, ?_, ?_, rfl⟩
  · unfold serverLevel; split_ifs <;> simp
  · unfold dbLevel; split_ifs <;> simp
  · unfold hookLevel; split_ifs <;> simp
  · unfold serverLevel; split_ifs <;> simp [pickVariant]
  · unfold dbLevel; split_ifs <;> simp [pickVariant]
  · unfold hookLevel; split_ifs <;> simp [pickVariant]
  · unfold serverLevel serverUp
    split_ifs with h
    · exact iff_of_true rfl h
    · exact iff_of_false (by decide) (by simpa using h)
  · unfold dbLevel dbConnected
    split_ifs with h
    · exact iff_of_true rfl h
    · exact iff_of_false (by decide) (by simpa using h)

/-- Length of the window `[s..e]`. -/
theorem windowFrom_length (s e : ℤ) :
    (windowFrom s e).length = (e - s + 1).toNat := by
  simp [windowFrom]

/-- Membership in the window `[s..e]`. -/
theorem windowFrom_mem (s e x : ℤ) : x ∈ windowFrom s e ↔ s ≤ x ∧ x ≤ e := by
  unfold windowFrom
  rw [List.mem_map]
  constructor
  · rintro ⟨i, hi, rfl⟩
    rw [List.mem_range] at hi
    omega
  · rintro ⟨h1, h2⟩
    refine ⟨(x - s).toNat, ?_, ?_⟩
    · rw [List.mem_range]; omega
    · omega

/-- Each entry of the window `[s..e]` is one more than its predecessor. -/
theorem windowFrom_chain (s e : ℤ) :
    List.Chain' (fun a b => b = a + 1) (windowFrom s e) := by
  unfold windowFrom
  rw [List.chain'_map]
  cases h : (e - s + 1).toNat with
  | zero => simp
  | succ k =>
    rw [List.chain'_range_succ]
    intro m _
    push_cast
    ring

/-- The addons-page window in closed form. -/
theorem pagesAddons_eq (cp tp : ℤ) :
    pagesAddons cp tp =
      windowFrom (max 1 (min (max 1 (cp - 2)) (min tp (max 1 (cp - 2) + 4) - 4)))
        (min tp (max 1 (cp - 2) + 4)) := by
  simp only [pagesAddons]
  congr 1 <;> omega

/-- The workspace-page window in closed form. -/
theorem pagesWorkspace_eq (cp tp : ℤ) :
    pagesWorkspace cp tp =
      windowFrom (max 1 (cp - 2)) (min tp (max 1 (cp - 2) + 4)) := by
  simp only [pagesWorkspace]
  congr 1 <;> omega

/-- C1 counterexample: at currentPage = totalPages = 5 (within 1 ≤
currentPage ≤ totalPages), the workspace/properties-page window is
[3, 4, 5], of length 3 ≠ min(5, totalPages) = 5. -/
theorem c1_window_length_cex :
    pagesWorkspace 5 5 = [3, 4, 5]
    ∧ ((pagesWorkspace 5 5).length : ℤ) ≠ min 5 5 := by
  decide

/-- C1 amended: for 1 ≤ currentPage ≤ totalPages the addons-page window
has exactly min(5, totalPages) entries, while the workspace/properties-page
window (which lacks the re-clamp) has
min(5, totalPages - max(1, currentPage - 2) + 1) entries. -/
theorem window_length_amended (cp tp : ℤ) (h1 : 1 ≤ cp) (h2 : cp ≤ tp) :
    ((pagesAddons cp tp).length : ℤ) = min 5 tp
    ∧ ((pagesWorkspace cp tp).length : ℤ) = min 5 (tp - max 1 (cp - 2) + 1) := by
  constructor
  · rw [pagesAddons_eq, windowFrom_length]; omega
  · rw [pagesWorkspace_eq, windowFrom_length]; omega

/-- Witness for `window_length_amended` at currentPage = 5,
totalPages = 5. -/
theorem window_length_amended_witness :
    (1 : ℤ) ≤ 5 ∧ (5 : ℤ) ≤ 5
    ∧ (((pagesAddons 5 5).length : ℤ) = min 5 5
      ∧ ((pagesWorkspace 5 5).length : ℤ) = min 5 (5 - max 1 (5 - 2) + 1)) :=
  ⟨by decide, by decide, window_length_amended 5 5 (by decide) (by decide)⟩

/-- C2: for currentPage ≥ 1 and totalPages ≥ 1, the addons-page window
equals the spec algorithm's output: half = 2, start0 = max(1, cp - 2),
end = min(tp, start0 + 4), start = max(1, min(start0, end - 4)),
[start..end]. -/
theorem addons_window_matches_spec (cp tp : ℤ) (h1 : 1 ≤ cp) (h2 : 1 ≤ tp) :
    pagesAddons cp tp = computeWindowSpec cp tp := by
  rw [pagesAddons_eq]
  simp only [computeWindowSpec]

/-- Witness for `addons_window_matches_spec` at currentPage = 7,
totalPages = 10. -/
theorem addons_window_matches_spec_witness :
    (1 : ℤ) ≤ 7 ∧ (1 : ℤ) ≤ 10
    ∧ pagesAddons 7 10 = computeWindowSpec 7 10 :=
  ⟨by decide, by decide, addons_window_matches_spec 7 10 (by decide) (by decide)⟩

/-- C3 counterexample: at totalPages = 4 ≤ 5 and currentPage = 4, the
workspace/properties-page window is [2, 3, 4], not the full
[1..totalPages] = [1, 2, 3, 4]. -/
theorem c3_full_window_cex :
    pagesWorkspace 4 4 = [2, 3, 4]
    ∧ windowFrom 1 4 = [1, 2, 3, 4]
    ∧ pagesWorkspace 4 4 ≠ windowFrom 1 4 := by
  decide

/-- C3 amended: for totalPages ≤ 5 and 1 ≤ currentPage ≤ totalPages, the
addons-page window is the full [1..totalPages]; the workspace-page window
is the full [1..totalPages] when currentPage ≤ 3 but only
[currentPage-2 .. totalPages] when currentPage ≥ 4. -/
theorem small_total_window (cp tp : ℤ) (h1 : 1 ≤ cp) (h2 : cp ≤ tp)
    (h5 : tp ≤ 5) :
    pagesAddons cp tp = windowFrom 1 tp
    ∧ (cp ≤ 3 → pagesWorkspace cp tp = windowFrom 1 tp)
    ∧ (4 ≤ cp → pagesWorkspace cp tp = windowFrom (cp - 2) tp) := by
  refine ⟨?_, fun h => ?_, fun h => ?_⟩
  · rw [pagesAddons_eq]; congr 1 <;> omega
  · rw [pagesWorkspace_eq]; congr 1 <;> omega
  · rw [pagesWorkspace_eq]; congr 1 <;> omega

/-- Witness for `small_total_window` at currentPage = 2, totalPages = 3. -/
theorem small_total_window_witness :
    (1 : ℤ) ≤ 2 ∧ (2 : ℤ) ≤ 3 ∧ (3 : ℤ) ≤ 5
    ∧ (pagesAddons 2 3 = windowFrom 1 3
      ∧ ((2 : ℤ) ≤ 3 → pagesWorkspace 2 3 = windowFrom 1 3)
      ∧ ((4 : ℤ) ≤ 2 → pagesWorkspace 2 3 = windowFrom (2 - 2) 3)) :=
  ⟨by decide, by decide, by decide,
    small_total_window 2 3 (by decide) (by decide) (by decide)⟩

/-- C9: for totalPages ≥ 5 and 3 ≤ currentPage ≤ totalPages - 2, both
windows have length 5 and are centered on currentPage:
[currentPage-2 .. currentPage+2]. -/
theorem centered_window (cp tp : ℤ) (h5 : 5 ≤ tp) (h3 : 3 ≤ cp)
    (hub : cp ≤ tp - 2) :
    pagesAddons cp tp = windowFrom (cp - 2) (cp + 2)
    ∧ pagesWorkspace cp tp = windowFrom (cp - 2) (cp + 2)
    ∧ (pagesAddons cp tp).length = 5
    ∧ (pagesWorkspace cp tp).length = 5 := by
  refine ⟨?_, ?_, ?_, ?_⟩
  · rw [pagesAddons_eq]; congr 1 <;> omega
  · rw [pagesWorkspace_eq]; congr 1 <;> omega
  · rw [pagesAddons_eq, windowFrom_length]; omega
  · rw [pagesWorkspace_eq, windowFrom_length]; omega

/-- Witness for `centered_window` at currentPage = 3, totalPages = 5. -/
theorem centered_window_witness :
    (5 : ℤ) ≤ 5 ∧ (3 : ℤ) ≤ 3 ∧ (3 : ℤ) ≤ 5 - 2
    ∧ (pagesAddons 3 5 = windowFrom (3 - 2) (3 + 2)
      ∧ pagesWorkspace 3 5 = windowFrom (3 - 2) (3 + 2)
      ∧ (pagesAddons 3 5).length = 5
      ∧ (pagesWorkspace 3 5).length = 5) :=
  ⟨by decide, by decide, by decide,
    centered_window 3 5 (by decide) (by decide) (by decide)⟩

/-- C10: for every currentPage ≥ 1 and totalPages ≥ 1 — including
currentPage > totalPages — the addons-page window is non-empty, each entry
lies in [1, totalPages], and each entry is one more than its predecessor
(so the window is a strictly increasing contiguous run). -/
theorem addons_window_safe (cp tp : ℤ) (hcp : 1 ≤ cp) (htp : 1 ≤ tp) :
    pagesAddons cp tp ≠ []
    ∧ (∀ x ∈ pagesAddons cp tp, 1 ≤ x ∧ x ≤ tp)
    ∧ List.Chain' (fun a b => b = a + 1) (pagesAddons cp tp) := by
  refine ⟨?_, ?_, ?_⟩
  · have hlen : (pagesAddons cp tp).length ≠ 0 := by
      rw [pagesAddons_eq, windowFrom_length]; omega
    intro hnil
    rw [hnil] at hlen
    exact hlen rfl
  · intro x hx
    rw [pagesAddons_eq, windowFrom_mem] at hx
    omega
  · rw [pagesAddons_eq]
    exact windowFrom_chain _ _

/-- Witness for `addons_window_safe` at currentPage = 10 > totalPages = 3. -/
theorem addons_window_safe_witness :
    (1 : ℤ) ≤ 10 ∧ (1 : ℤ) ≤ 3
    ∧ (pagesAddons 10 3 ≠ []
      ∧ (∀ x ∈ pagesAddons 10 3, 1 ≤ x ∧ x ≤ 3)
      ∧ List.Chain' (fun a b => b = a + 1) (pagesAddons 10 3)) :=
  ⟨by decide, by decide, addons_window_safe 10 3 (by decide) (by decide)⟩

/-- A parsed number is flagged negative exactly when its rational value is
negative. -/
theorem JsNum.isNeg_iff (n : JsNum) : n.isNeg = true ↔ n.toRat < 0 := by
  unfold JsNum.isNeg JsNum.toRat
  rw [decide_eq_true_eq, div_neg_iff]
  constructor
  · intro h
    exact Or.inr ⟨by exact_mod_cast h, by positivity⟩
  · rintro (⟨_, h2⟩ | ⟨h1, _⟩)
    · exact absurd h2 (not_lt.mpr (le_of_lt (by positivity)))
    · exact_mod_cast h1

/-- C6: in the create-addon form, whenever the trimmed title is empty, the
trimmed description is empty, or the value does not coerce to a finite
non-negative number, submission stops with a validation error and the
create request is never issued (the submission decision is pure: no other
state is touched). -/
theorem create_validation_blocks (f : CreateForm)
    (h : trimStr f.title = "" ∨ trimStr f.description = ""
      ∨ jsNumber f.value = none
      ∨ ∃ v, jsNumber f.value = some v ∧ v.toRat < 0) :
    (∃ msg, onSubmit f = CreateOutcome.validationError msg)
    ∧ ∀ t d v, onSubmit f ≠ CreateOutcome.request t d v := by
  have hmain : ∃ msg, onSubmit f = CreateOutcome.validationError msg := by
    by_cases h1 : trimStr f.title = ""
    · exact ⟨"TITLE_IS_REQUIRED", by simp [onSubmit, h1]⟩
    · by_cases h2 : trimStr f.description = ""
      · exact ⟨"DESCRIPTION_IS_REQUIRED", by simp [onSubmit, h1, h2]⟩
      · rcases h with h | h | h | ⟨v, hv, hneg⟩
        · exact absurd h h1
        · exact absurd h h2
        · exact ⟨"VALUE_MUST_BE_NON_NEGATIVE_NUMBER", by simp [onSubmit, h1, h2, h]⟩
        · have hb : v.isNeg = true := (JsNum.isNeg_iff v).mpr hneg
          exact ⟨"VALUE_MUST_BE_NON_NEGATIVE_NUMBER",
            by simp [onSubmit, h1, h2, hv, hb]⟩
  refine ⟨hmain, ?_⟩
  rcases hmain with ⟨msg, hmsg⟩
  intro t d v heq
  rw [hmsg] at heq
  exact CreateOutcome.noConfusion heq

/-- Witness for `create_validation_blocks`: empty title, non-empty
description, value "10". -/
theorem create_validation_blocks_witness :
    (trimStr ("" : String) = "" ∨ trimStr "SOME_DESC" = ""
      ∨ jsNumber "10" = none ∨ ∃ v, jsNumber "10" = some v ∧ v.toRat < 0)
    ∧ ((∃ msg, onSubmit ⟨"", "SOME_DESC", "10"⟩ = CreateOutcome.validationError msg)
      ∧ ∀ t d v, onSubmit ⟨"", "SOME_DESC", "10"⟩ ≠ CreateOutcome.request t d v) :=
  ⟨Or.inl (by decide), create_validation_blocks ⟨"", "SOME_DESC", "10"⟩ (Or.inl (by decide))⟩

/-- C7 counterexample: an edit-form state with a valid id, empty title and
empty description, and value "0": `submit` issues the PATCH request with
the empty fields instead of stopping with a validation error. -/
theorem edit_missing_title_cex :
    submit ⟨⟨some "a1", some "T", some "D", some "1", none⟩, "", "", "0", "ACTIVE"⟩
      = EditOutcome.request "a1" "" "" ⟨0, 0⟩ "ACTIVE" := by
  set_option maxRecDepth 8000 in decide

/-- C7 amended: the edit-addon form blocks submission with a validation
error exactly when the addon id is empty or the value is not a finite
non-negative number; an empty title or description never blocks it. -/
theorem edit_validation_blocks (st : EditState) :
    (∃ msg, submit st = EditOutcome.validationError msg)
      ↔ (jsOr st.q.id "" = "" ∨ jsNumber st.value = none
        ∨ ∃ v, jsNumber st.value = some v ∧ v.toRat < 0) := by
  by_cases h1 : jsOr st.q.id "" = ""
  · simp [submit, h1]
  · cases hv : jsNumber st.value with
    | none => simp [submit, h1, hv]
    | some v =>
      by_cases hneg : v.isNeg = true
      · simp [submit, h1, hv, hneg, (JsNum.isNeg_iff v).mp hneg]
      · have hnr : ¬ v.toRat < 0 := fun hc => hneg ((JsNum.isNeg_iff v).mpr hc)
        simp [submit, h1, hv, hneg, hnr]

/-- C8: `hasChanges` is false exactly when title, description, value and
status all equal their initial values derived from the URL query
parameters, and whenever it is false the submit control is disabled. -/
theorem hasChanges_iff_and_disables (st : EditState) :
    (hasChanges st = false
      ↔ (st.title = initialTitle st.q ∧ st.description = initialDescription st.q
        ∧ st.value = initialValue st.q ∧ st.status = initialStatus st.q))
    ∧ (hasChanges st = false → ∀ saving, submitDisabled saving st = true) := by
  constructor
  · simp [hasChanges, and_assoc]
  · intro h saving
    simp [submitDisabled, h]

/-- Witness for `hasChanges_iff_and_disables` at a concrete unchanged
form state. -/
theorem hasChanges_iff_and_disables_witness :
    (hasChanges ⟨⟨some "a", some "T", some "D", some "1", none⟩, "T", "D", "1", "ACTIVE"⟩ = false
      ↔ (("T" : String) = initialTitle ⟨some "a", some "T", some "D", some "1", none⟩
        ∧ ("D" : String) = initialDescription ⟨some "a", some "T", some "D", some "1", none⟩
        ∧ ("1" : String) = initialValue ⟨some "a", some "T", some "D", some "1", none⟩
        ∧ ("ACTIVE" : String) = initialStatus ⟨some "a", some "T", some "D", some "1", none⟩))
    ∧ (hasChanges ⟨⟨some "a", some "T", some "D", some "1", none⟩, "T", "D", "1", "ACTIVE"⟩ = false
      → ∀ saving, submitDisabled saving
          ⟨⟨some "a", some "T", some "D", some "1", none⟩, "T", "D", "1", "ACTIVE"⟩ = true) :=
  hasChanges_iff_and_disables ⟨⟨some "a", some "T", some "D", some "1", none⟩, "T", "D", "1", "ACTIVE"⟩
